import Mathlib

/-!
Shallow embedding of the duke playback core: the driving loop of
`src/duke/engine/DukeMainWindow.cpp` (`DukeMainWindow::run`), together with
the Player / Timeline operations it calls.  Pure fragments of the C++ become
Lean functions; the throwing `switch` fallbacks become `Except`; the loop's
per-track rendering decision becomes a total function into a sum type of
render actions.
-/

namespace Duke

/-- IterationMode as consumed by `TextureCache.prepare`
(src/duke/engine/DukeMainWindow.cpp line 195). -/
inductive IterationMode where
  | FORWARD
  | BACKWARD
  | PINGPONG
deriving DecidableEq, Repr

/-- Embeds DukeMainWindow.cpp line 195:
`speed < 0 ? IterationMode::BACKWARD : (speed > 0 ? IterationMode::FORWARD : IterationMode::PINGPONG)`. -/
def iterationModeOfSpeed (speed : Int) : IterationMode :=
  if speed < 0 then IterationMode.BACKWARD
  else if speed > 0 then IterationMode.FORWARD
  else IterationMode.PINGPONG

/-- Inclusive timeline range, as returned by `Timeline::getRange()`
(spec section 4.3: inclusive `(first,last)` across all tracks, used to clamp cueing). -/
structure TimelineRange where
  first : Int
  last : Int
deriving DecidableEq, Repr

/-- Clamping of a cue target to the timeline's inclusive range `[first,last]`. -/
def clampFrame (r : TimelineRange) (f : Int) : Int :=
  max r.first (min r.last f)

/-- Modelled from the spec: the Player class is not under src/ (only its caller
`DukeMainWindow::run` is).  Spec section 3: Player state is currentFrame (a Time),
playbackSpeed (signed integer, 0 = paused), the bound Timeline range, and the
session FrameDuration; Time is a rational value, and the frame index is derived
by rounding Time / FrameDuration (the loop does `m_Context.currentFrame.round()`). -/
structure Player where
  playbackTime : ℚ
  playbackSpeed : Int
  frameDuration : ℚ
  range : TimelineRange
deriving DecidableEq, Repr

/-- Frame index derived from the playback clock: rounding Time / FrameDuration
(spec section 3, and `m_Context.currentFrame.round()` in the loop). -/
def Player.currentFrame (p : Player) : Int :=
  round (p.playbackTime / p.frameDuration)

/-- Modelled from the spec: `cue(frame)` is an absolute seek, clamped to the
Timeline's `[first,last]`, never erroring on out-of-range input (spec 4.1).
The clock is positioned exactly on the clamped frame. -/
def Player.cue (p : Player) (f : Int) : Player :=
  { p with playbackTime := ((clampFrame p.range f : Int) : ℚ) * p.frameDuration }

/-- Modelled from the spec: `cueRelative(delta)` is equivalent to
`cue(currentFrame + delta)` (spec 4.1). -/
def Player.cueRelative (p : Player) (delta : Int) : Player :=
  p.cue (p.currentFrame + delta)

/-- Modelled from the spec: `setPlaybackSpeed(speed)` stores the signed integer
speed; changing speed never itself changes currentFrame (spec 4.1). -/
def Player.setPlaybackSpeed (p : Player) (speed : Int) : Player :=
  { p with playbackSpeed := speed }

/-- Sign of the playback speed, as used by `offsetPlaybackTime` (spec 4.1). -/
def speedSign (s : Int) : Int :=
  if 0 < s then 1 else if s < 0 then -1 else 0

/-- Modelled from the spec: `offsetPlaybackTime(elapsed)` advances playbackTime
by `elapsed * sign(speed)`; at speed==0 time must not advance regardless of
elapsed (spec 4.1). -/
def Player.offsetPlaybackTime (p : Player) (elapsed : ℚ) : Player :=
  { p with playbackTime := p.playbackTime + elapsed * ((speedSign p.playbackSpeed : Int) : ℚ) }

/-- Embeds the `togglePlayStop` lambda of DukeMainWindow.cpp lines 155-159:
`speed = getPlaybackSpeed() == 0 ? 1 : 0; setPlaybackSpeed(speed); return speed != 0`. -/
def togglePlayStop (p : Player) : Player × Bool :=
  let speed : Int := if p.playbackSpeed = 0 then 1 else 0
  (p.setPlaybackSpeed speed, speed != 0)

/-- Modelled from the spec: the FitMode enum declaration lives in a header that
is not under src/ (only the `switch` statements over it are).  Its four
enumerators FREE, INNER, OUTER, ACTUAL are modelled as distinct codes of the
underlying integer type of a C++ `enum class`, so that values outside the
declared enumerators — which reach the `switch` fallthrough — are expressible. -/
def FitMode.FREE : Int := 0

/-- See `FitMode.FREE`. -/
def FitMode.INNER : Int := 1

/-- See `FitMode.FREE`. -/
def FitMode.OUTER : Int := 2

/-- See `FitMode.FREE`. -/
def FitMode.ACTUAL : Int := 3

/-- A value of the underlying integer type that is one of the four declared
FitMode enumerators. -/
def isDeclaredFitMode (mode : Int) : Prop :=
  mode = FitMode.FREE ∨ mode = FitMode.INNER ∨ mode = FitMode.OUTER ∨ mode = FitMode.ACTUAL

/-- Embeds `setNextMode` of DukeMainWindow.cpp lines 101-117: the `switch` that
cycles FREE→INNER→OUTER→ACTUAL→INNER, returning whether the mode needs a zoom
setup, and throws `std::runtime_error("unknown fitmode")` on any other value.
The C++ in-out reference becomes the returned mode; the throw becomes `.error`. -/
def setNextMode (mode : Int) : Except String (Int × Bool) :=
  if mode = FitMode.FREE then .ok (FitMode.INNER, true)
  else if mode = FitMode.INNER then .ok (FitMode.OUTER, true)
  else if mode = FitMode.OUTER then .ok (FitMode.ACTUAL, false)
  else if mode = FitMode.ACTUAL then .ok (FitMode.INNER, true)
  else .error "unknown fitmode"

/-- Embeds `getFitModeString` of DukeMainWindow.cpp lines 119-131: the `switch`
mapping each declared FitMode to its display string, throwing
`std::runtime_error("unknown fitmode")` on any other value. -/
def getFitModeString (mode : Int) : Except String String :=
  if mode = FitMode.ACTUAL then .ok "Actual pixel"
  else if mode = FitMode.INNER then .ok "Fit inner frame"
  else if mode = FitMode.FREE then .ok "No fit"
  else if mode = FitMode.OUTER then .ok "Fit outer frame"
  else .error "unknown fitmode"

/-- Clip: half-open frame range `[start, stop)` referencing one media stream
(spec section 3); `stop` models the exclusive `end` bound (`end` is reserved in
Lean), and `stream` models the clip's MediaStream reference, `none` standing
for a null `pMediaStream` as checked by the loop at line 211. -/
structure Clip where
  start : Int
  stop : Int
  stream : Option Nat
deriving DecidableEq, Repr

/-- Track: ordered sequence of Clips and a disabled flag (spec section 3). -/
structure Track where
  disabled : Bool
  clips : List Clip
deriving DecidableEq, Repr

/-- Modelled from the spec: `Track::clipContaining(frame)` is not under src/
(only its caller is).  Spec 4.3: search over the time-sorted clips, returning a
"not found" sentinel for gaps; `none` models the `track.end()` iterator tested
at DukeMainWindow.cpp line 205. -/
def Track.clipContaining (t : Track) (f : Int) : Option Clip :=
  t.clips.find? (fun c => c.start ≤ f && f < c.stop)

/-- The per-track outcome of one iteration of the rendering loop. -/
inductive RenderAction where
  | noRender
  | noStream
  | placeholder
  | texture (handle : Nat)
deriving DecidableEq, Repr

/-- Embeds the per-track body of the rendering loop, DukeMainWindow.cpp lines
200-224: a disabled track is skipped (`continue`), a frame in a gap
(`clipContaining == end()`) is skipped, a null media stream draws no image, a
cache miss (`getLoadedTexture` returning null, passed here as the `lookup`
argument since the cache is an external collaborator) draws the
"missing frame" placeholder text, and a hit renders the bound texture.  The
function is total: no outcome raises. -/
def trackRenderAction (t : Track) (f : Int) (lookup : Option Nat) : RenderAction :=
  if t.disabled then .noRender
  else
    match t.clipContaining f with
    | none => .noRender
    | some c =>
      match c.stream with
      | none => .noStream
      | some _ =>
        match lookup with
        | none => .placeholder
        | some h => .texture h

/-- Embeds the dumpState throttle condition of DukeMainWindow.cpp line 322:
`(now - milestone) > std::chrono::milliseconds(100)`.  Instants are modelled in
milliseconds. -/
def dumpFires (milestone now : Nat) : Bool := 100 < now - milestone

/-- Embeds the milestone update of DukeMainWindow.cpp lines 322-327: when the
throttle condition holds, `dumpState` is called and `milestone = now`;
otherwise the milestone is left unchanged. -/
def stepMilestone (milestone now : Nat) : Nat :=
  if dumpFires milestone now then now else milestone

/-- Step of repeated relative cueing on bare frame indices: one `cueRelative(d)`
moves a frame `x` to `clampFrame r (x + d)`. -/
def clampAdd (r : TimelineRange) (d : Int) (x : Int) : Int :=
  clampFrame r (x + d)

@[simp]
theorem cue_range (p : Player) (f : Int) : (p.cue f).range = p.range := rfl

@[simp]
theorem cue_frameDuration (p : Player) (f : Int) :
    (p.cue f).frameDuration = p.frameDuration := rfl

@[simp]
theorem cueRelative_range (p : Player) (d : Int) :
    (p.cueRelative d).range = p.range := rfl

@[simp]
theorem cueRelative_frameDuration (p : Player) (d : Int) :
    (p.cueRelative d).frameDuration = p.frameDuration := rfl

/-- A cue lands exactly on the clamped target frame. -/
theorem currentFrame_cue (p : Player) (f : Int) (hfd : 0 < p.frameDuration) :
    (p.cue f).currentFrame = clampFrame p.range f := by
  unfold Player.cue Player.currentFrame
  rw [mul_div_cancel_right₀ _ (ne_of_gt hfd)]
  exact round_intCast _

/-- A relative cue lands exactly on the clamped displaced frame. -/
theorem currentFrame_cueRelative (p : Player) (d : Int) (hfd : 0 < p.frameDuration) :
    (p.cueRelative d).currentFrame = clampFrame p.range (p.currentFrame + d) :=
  currentFrame_cue p (p.currentFrame + d) hfd

/-- Clamping puts the result inside the range. -/
theorem clampFrame_mem (r : TimelineRange) (f : Int) (h : r.first ≤ r.last) :
    r.first ≤ clampFrame r f ∧ clampFrame r f ≤ r.last := by
  unfold clampFrame
  omega

/-- A clamp after a clamped step in a fixed direction collapses to one clamp. -/
theorem clampFrame_step (r : TimelineRange) (d e x : Int) (hr : r.first ≤ r.last)
    (hx1 : r.first ≤ x) (hx2 : x ≤ r.last)
    (hsign : (0 ≤ d ∧ 0 ≤ e) ∨ (d ≤ 0 ∧ e ≤ 0)) :
    clampFrame r (clampFrame r (x + d) + e) = clampFrame r (x + d + e) := by
  unfold clampFrame
  omega

/-- Iterating the clamped step from an in-range frame equals one clamp of the
accumulated displacement. -/
theorem clampAdd_iterate (r : TimelineRange) (d : Int) (hr : r.first ≤ r.last) :
    ∀ (n : Nat) (x : Int), r.first ≤ x → x ≤ r.last →
      (clampAdd r d)^[n] x = clampFrame r (x + n * d) := by
  intro n
  induction n with
  | zero =>
    intro x hx1 hx2
    simp only [Function.iterate_zero, id_eq, Nat.cast_zero, zero_mul, add_zero]
    unfold clampFrame
    omega
  | succ n ih =>
    intro x hx1 hx2
    rw [Function.iterate_succ_apply]
    have hmem := clampFrame_mem r (x + d) hr
    rw [ih (clampAdd r d x) hmem.1 hmem.2]
    have hcast : ((n + 1 : Nat) : Int) * d = d + (n : Int) * d := by
      push_cast
      ring
    rw [hcast, ← add_assoc]
    refine clampFrame_step r d ((n : Int) * d) x hr hx1 hx2 ?_
    rcases le_total 0 d with hd | hd
    · exact Or.inl ⟨hd, mul_nonneg (Int.natCast_nonneg n) hd⟩
    · exact Or.inr ⟨hd, mul_nonpos_iff.mpr (Or.inl ⟨Int.natCast_nonneg n, hd⟩)⟩

/-- Iterated relative cueing preserves the range and the frame duration, and
acts on the current frame as the iterated clamped step. -/
theorem cueRelative_iterate_aux (d : Int) :
    ∀ (n : Nat) (p : Player), 0 < p.frameDuration →
      ((fun q => Player.cueRelative q d)^[n] p).range = p.range ∧
      ((fun q => Player.cueRelative q d)^[n] p).frameDuration = p.frameDuration ∧
      ((fun q => Player.cueRelative q d)^[n] p).currentFrame
        = (clampAdd p.range d)^[n] p.currentFrame := by
  intro n
  induction n with
  | zero =>
    intro p hfd
    simp
  | succ n ih =>
    intro p hfd
    obtain ⟨hr, hf, hc⟩ := ih p hfd
    have hfd' : 0 < ((fun q => Player.cueRelative q d)^[n] p).frameDuration := by
      rw [hf]
      exact hfd
    refine ⟨?_, ?_, ?_⟩
    · rw [Function.iterate_succ_apply', cueRelative_range, hr]
    · rw [Function.iterate_succ_apply', cueRelative_frameDuration, hf]
    · rw [Function.iterate_succ_apply', Function.iterate_succ_apply']
      rw [currentFrame_cueRelative _ _ hfd', hr, hc]
      rfl

/-- C1: the IterationMode computed by the driving loop from the playback speed
read off the Player (DukeMainWindow.cpp line 195) is FORWARD when the speed is
positive, BACKWARD when it is negative, and PINGPONG when it is zero. -/
theorem iterationMode_of_speed_sign (speed : Int) :
    (0 < speed → iterationModeOfSpeed speed = IterationMode.FORWARD) ∧
    (speed < 0 → iterationModeOfSpeed speed = IterationMode.BACKWARD) ∧
    (speed = 0 → iterationModeOfSpeed speed = IterationMode.PINGPONG) := by
  unfold iterationModeOfSpeed
  refine ⟨fun h => ?_, fun h => ?_, fun h => ?_⟩ <;> split_ifs <;> first | rfl | omega

/-- Witness for C1 at speeds 1, -1 and 0. -/
theorem iterationMode_of_speed_sign_witness :
    iterationModeOfSpeed 1 = IterationMode.FORWARD ∧
    iterationModeOfSpeed (-1) = IterationMode.BACKWARD ∧
    iterationModeOfSpeed 0 = IterationMode.PINGPONG :=
  ⟨(iterationMode_of_speed_sign 1).1 (by decide),
   (iterationMode_of_speed_sign (-1)).2.1 (by decide),
   (iterationMode_of_speed_sign 0).2.2 rfl⟩

/-- C2: `cue(f)` sets the current frame to `f` clamped to the Timeline's
inclusive range, for every frame argument, negative and past-the-end included;
`Player.cue` is a total function, so no input raises. -/
theorem cue_clamps (p : Player) (f : Int) (hfd : 0 < p.frameDuration) :
    (p.cue f).currentFrame = clampFrame p.range f :=
  currentFrame_cue p f hfd

/-- Witness for C2: the spec scenario on range [0,100], with cue(150) landing
on 100 and cue(-5) landing on 0. -/
theorem cue_clamps_witness :
    (Player.cue ⟨0, 0, 1, ⟨0, 100⟩⟩ 150).currentFrame = 100 ∧
    (Player.cue ⟨0, 0, 1, ⟨0, 100⟩⟩ (-5)).currentFrame = 0 := by
  constructor
  · rw [cue_clamps ⟨0, 0, 1, ⟨0, 100⟩⟩ 150 (by norm_num)]
    decide
  · rw [cue_clamps ⟨0, 0, 1, ⟨0, 100⟩⟩ (-5) (by norm_num)]
    decide

/-- C4: `offsetPlaybackTime(elapsed)` leaves both the playback time and the
current frame unchanged when the speed is 0, for every elapsed value, and in
general advances the playback time by `elapsed * sign(speed)`. -/
theorem offsetPlaybackTime_spec (p : Player) (elapsed : ℚ) :
    (p.playbackSpeed = 0 →
      (p.offsetPlaybackTime elapsed).playbackTime = p.playbackTime ∧
      (p.offsetPlaybackTime elapsed).currentFrame = p.currentFrame) ∧
    (p.offsetPlaybackTime elapsed).playbackTime
      = p.playbackTime + elapsed * ((speedSign p.playbackSpeed : Int) : ℚ) := by
  refine ⟨fun h => ?_, rfl⟩
  have hz : (p.offsetPlaybackTime elapsed).playbackTime = p.playbackTime := by
    unfold Player.offsetPlaybackTime speedSign
    rw [h]
    norm_num
  refine ⟨hz, ?_⟩
  unfold Player.currentFrame
  rw [hz]
  rfl

/-- Witness for C4 at a paused player and elapsed 42. -/
theorem offsetPlaybackTime_spec_witness :
    (Player.offsetPlaybackTime ⟨3, 0, 1, ⟨0, 100⟩⟩ 42).playbackTime
        = (Player.mk 3 0 1 ⟨0, 100⟩).playbackTime ∧
    (Player.offsetPlaybackTime ⟨3, 0, 1, ⟨0, 100⟩⟩ 42).currentFrame
        = (Player.mk 3 0 1 ⟨0, 100⟩).currentFrame :=
  (offsetPlaybackTime_spec ⟨3, 0, 1, ⟨0, 100⟩⟩ 42).1 rfl

/-- C8: for frames f1 and f2 both inside the Timeline range, cueing to f1 and
then to f2 leaves the current frame at f2: the last cue alone determines the
position. -/
theorem cue_last_wins (p : Player) (f1 f2 : Int) (hfd : 0 < p.frameDuration)
    (h1a : p.range.first ≤ f1) (h1b : f1 ≤ p.range.last)
    (h2a : p.range.first ≤ f2) (h2b : f2 ≤ p.range.last) :
    ((p.cue f1).cue f2).currentFrame = f2 := by
  rw [currentFrame_cue (p.cue f1) f2 hfd, cue_range]
  unfold clampFrame
  omega

/-- Witness for C8 on range [0,100] with f1 = 10 and f2 = 20. -/
theorem cue_last_wins_witness :
    ((Player.cue ⟨0, 0, 1, ⟨0, 100⟩⟩ 10).cue 20).currentFrame = 20 :=
  cue_last_wins ⟨0, 0, 1, ⟨0, 100⟩⟩ 10 20 (by norm_num)
    (by decide) (by decide) (by decide) (by decide)

/-- C10: the space-bar toggle sets the speed to 1 exactly when the current
speed is 0 and to 0 otherwise, and reports playing exactly when the new speed
is nonzero (DukeMainWindow.cpp lines 155-159 and 252-255). -/
theorem togglePlayStop_spec (p : Player) :
    (p.playbackSpeed = 0 →
      (togglePlayStop p).1.playbackSpeed = 1 ∧ (togglePlayStop p).2 = true) ∧
    (p.playbackSpeed ≠ 0 →
      (togglePlayStop p).1.playbackSpeed = 0 ∧ (togglePlayStop p).2 = false) ∧
    (togglePlayStop p).2 = ((togglePlayStop p).1.playbackSpeed != 0) := by
  unfold togglePlayStop Player.setPlaybackSpeed
  by_cases h : p.playbackSpeed = 0 <;> simp [h]

/-- Witness for C10: a player at speed 5 toggles to 0 and then to 1, so the
original speed 5 is not restored. -/
theorem togglePlayStop_spec_witness :
    (togglePlayStop ⟨0, 5, 1, ⟨0, 100⟩⟩).1.playbackSpeed = 0 ∧
    (togglePlayStop (togglePlayStop ⟨0, 5, 1, ⟨0, 100⟩⟩).1).1.playbackSpeed = 1 := by
  have h1 : (togglePlayStop ⟨0, 5, 1, ⟨0, 100⟩⟩).1.playbackSpeed = 0 :=
    ((togglePlayStop_spec ⟨0, 5, 1, ⟨0, 100⟩⟩).2.1 (by decide)).1
  exact ⟨h1, ((togglePlayStop_spec (togglePlayStop ⟨0, 5, 1, ⟨0, 100⟩⟩).1).1 h1).1⟩

/-- C3: when the cache query for the current frame's MediaFrameReference is a
miss (`lookup = none`), the loop takes the placeholder-render path of line 222;
`trackRenderAction` is a total function into `RenderAction`, so a normal
hit/miss query never raises or terminates the process. -/
theorem miss_renders_placeholder (t : Track) (f : Int) (c : Clip) (s : Nat)
    (hd : t.disabled = false) (hc : t.clipContaining f = some c)
    (hs : c.stream = some s) :
    trackRenderAction t f none = RenderAction.placeholder := by
  simp [trackRenderAction, hd, hc, hs]

/-- Witness for C3: an enabled one-clip track whose clip covers frame 5, with a
missing texture for that frame. -/
theorem miss_renders_placeholder_witness :
    trackRenderAction ⟨false, [⟨0, 10, some 7⟩]⟩ 5 none = RenderAction.placeholder :=
  miss_renders_placeholder ⟨false, [⟨0, 10, some 7⟩]⟩ 5 ⟨0, 10, some 7⟩ 7
    rfl (by decide) rfl

/-- C5: dumpState fires only when strictly more than 100 ms — hence at least
100 ms — have elapsed since the milestone, the milestone is reset to the
current instant exactly when dumpState fires (so it records the previous
dumpState call), and an iteration at most 100 ms after a dump never dumps
again: dumpState runs neither on every iteration nor at shorter intervals. -/
theorem dumpState_throttled (milestone now later : Nat) (hmono : milestone ≤ now) :
    (dumpFires milestone now = true → now ≥ milestone + 100) ∧
    (dumpFires milestone now = true → stepMilestone milestone now = now) ∧
    (dumpFires milestone now = true → later ≤ now + 100 →
      dumpFires (stepMilestone milestone now) later = false) := by
  refine ⟨fun h => ?_, fun h => ?_, fun h hl => ?_⟩
  · unfold dumpFires at h
    simp only [decide_eq_true_eq] at h
    omega
  · simp [stepMilestone, h]
  · have hms : stepMilestone milestone now = now := by
      simp [stepMilestone, h]
    rw [hms]
    unfold dumpFires at h ⊢
    simp only [decide_eq_true_eq] at h
    simp only [decide_eq_false_iff_not]
    omega

/-- Witness for C5: a milestone at 0 ms, a dump at 150 ms, and a next iteration
at 200 ms which does not dump. -/
theorem dumpState_throttled_witness :
    (150 : Nat) ≥ 0 + 100 ∧ stepMilestone 0 150 = 150 ∧
    dumpFires (stepMilestone 0 150) 200 = false :=
  ⟨(dumpState_throttled 0 150 200 (by decide)).1 (by decide),
   (dumpState_throttled 0 150 200 (by decide)).2.1 (by decide),
   (dumpState_throttled 0 150 200 (by decide)).2.2 (by decide) (by decide)⟩

/-- C6: for each of the four declared FitMode values both `setNextMode` and
`getFitModeString` return normally (the throwing branch is unreachable), and
for every underlying value outside the four declared enumerators both throw
"unknown fitmode" rather than coerce to a default. -/
theorem fitMode_switch_total (mode : Int) :
    (isDeclaredFitMode mode →
      (setNextMode mode).isOk = true ∧ (getFitModeString mode).isOk = true) ∧
    (¬ isDeclaredFitMode mode →
      setNextMode mode = .error "unknown fitmode" ∧
      getFitModeString mode = .error "unknown fitmode") := by
  constructor
  · intro h
    unfold isDeclaredFitMode at h
    rcases h with rfl | rfl | rfl | rfl <;> decide
  · intro h
    unfold isDeclaredFitMode at h
    push_neg at h
    obtain ⟨h1, h2, h3, h4⟩ := h
    unfold setNextMode getFitModeString
    rw [if_neg h1, if_neg h2, if_neg h3, if_neg h4,
        if_neg h4, if_neg h2, if_neg h1, if_neg h3]
    exact ⟨rfl, rfl⟩

/-- Witness for C6: FREE (code 0) goes through both switches normally, and the
undeclared code 7 makes both throw. -/
theorem fitMode_switch_total_witness :
    ((setNextMode 0).isOk = true ∧ (getFitModeString 0).isOk = true) ∧
    (setNextMode 7 = .error "unknown fitmode" ∧
      getFitModeString 7 = .error "unknown fitmode") :=
  ⟨(fitMode_switch_total 0).1 (Or.inl rfl),
   (fitMode_switch_total 7).2 (by unfold isDeclaredFitMode; decide)⟩

/-- C9: for a frame lying in a gap of a track — no clip's half-open range
contains it — `clipContaining` returns the not-found sentinel (`none`, the
model of `track.end()`), and the loop renders nothing for that track on that
frame whatever the cache holds, raising no error since `trackRenderAction` is
total. -/
theorem gap_renders_nothing (t : Track) (f : Int)
    (hgap : ∀ c ∈ t.clips, ¬ (c.start ≤ f ∧ f < c.stop)) :
    t.clipContaining f = none ∧
    ∀ lookup, trackRenderAction t f lookup = RenderAction.noRender := by
  have hnone : t.clipContaining f = none := by
    unfold Track.clipContaining
    rw [List.find?_eq_none]
    intro c hc
    simpa using hgap c hc
  refine ⟨hnone, fun lookup => ?_⟩
  unfold trackRenderAction
  rw [hnone]
  by_cases h : t.disabled <;> simp [h]

/-- Witness for C9: a track with clips [0,10) and [20,30) queried at frame 15,
with both a miss and a hit in the cache. -/
theorem gap_renders_nothing_witness :
    Track.clipContaining ⟨false, [⟨0, 10, some 1⟩, ⟨20, 30, some 2⟩]⟩ 15 = none ∧
    trackRenderAction ⟨false, [⟨0, 10, some 1⟩, ⟨20, 30, some 2⟩]⟩ 15 none
      = RenderAction.noRender ∧
    trackRenderAction ⟨false, [⟨0, 10, some 1⟩, ⟨20, 30, some 2⟩]⟩ 15 (some 3)
      = RenderAction.noRender := by
  have h := gap_renders_nothing ⟨false, [⟨0, 10, some 1⟩, ⟨20, 30, some 2⟩]⟩ 15
    (by decide)
  exact ⟨h.1, h.2 none, h.2 (some 3)⟩

/-- C7: one `cueRelative(delta)` is by definition `cue(currentFrame + delta)`,
and n applications of `cueRelative(d)` starting from an in-range current frame
land on the same current frame as the single call
`cue(clamp(start + n*d))`. -/
theorem cueRelative_iterated (p : Player) (d : Int) (n : Nat)
    (hfd : 0 < p.frameDuration) (hr : p.range.first ≤ p.range.last)
    (h1 : p.range.first ≤ p.currentFrame) (h2 : p.currentFrame ≤ p.range.last) :
    p.cueRelative d = p.cue (p.currentFrame + d) ∧
    ((fun q => Player.cueRelative q d)^[n] p).currentFrame
      = (p.cue (clampFrame p.range (p.currentFrame + n * d))).currentFrame := by
  refine ⟨rfl, ?_⟩
  obtain ⟨-, -, hc⟩ := cueRelative_iterate_aux d n p hfd
  rw [hc, clampAdd_iterate p.range d hr n p.currentFrame h1 h2,
      currentFrame_cue p _ hfd]
  unfold clampFrame
  omega

/-- Witness for C7: on range [0,100] from frame 95, two steps of +10 equal the
single clamped cue to 100. -/
theorem cueRelative_iterated_witness :
    ((fun q => Player.cueRelative q 10)^[2] (⟨95, 0, 1, ⟨0, 100⟩⟩ : Player)).currentFrame
      = ((⟨95, 0, 1, ⟨0, 100⟩⟩ : Player).cue
          (clampFrame (⟨95, 0, 1, ⟨0, 100⟩⟩ : Player).range
            ((⟨95, 0, 1, ⟨0, 100⟩⟩ : Player).currentFrame + 2 * 10))).currentFrame := by
  have h95 : (⟨95, 0, 1, ⟨0, 100⟩⟩ : Player).currentFrame = 95 := by
    unfold Player.currentFrame
    rw [round_eq]
    norm_num
  exact (cueRelative_iterated ⟨95, 0, 1, ⟨0, 100⟩⟩ 10 2 (by norm_num) (by decide)
    (by rw [h95]; decide) (by rw [h95]; decide)).2

end Duke
